import Mathlib

/-!
Verification of the realtime voice bridge of `server.js` (the largest
variant: the `wss.on("connection", ...)` handler and its helpers,
lines 470-642).  The per-connection closure state (`streamSid`,
`bufferedMs`, `lastSpeechStoppedAt`, `responseInProgress`, `outQueue`)
is embedded as a `SessionState` record; each WebSocket event handler is
embedded as a pure function from state to state plus an `Effects`
record listing the messages passed to `wsSend`.

`wsSend` in the source checks `ws.readyState !== WebSocket.OPEN` and
silently discards the send otherwise.  The embedding keeps both views:
`issued*` lists every message handed to `wsSend` (the directive the
controller issues), `delivered*` lists the ones actually written to the
socket (issued while the socket is open).
-/

namespace PhoneAgent

/-- Messages the bridge hands to `wsSend` targeting the provider
(OpenAI realtime) socket: `session.update`, `response.create`
(the greeting carries instructions, the turn reply does not),
`input_audio_buffer.append`, `input_audio_buffer.commit`,
`response.cancel`. -/
inductive UpMsg where
  | sessionUpdate
  | responseCreate (instructions : Option String)
  | appendAudio (audio : String)
  | commit
  | responseCancel
deriving DecidableEq, Repr

/-- A media message sent to the telephony (Twilio) socket:
`{event:"media", streamSid, media:{payload}}`.  `streamSid` is `none`
when the variable is still `null`. -/
structure DownMsg where
  streamSid : Option String
  payload : String
deriving DecidableEq, Repr

/-- The per-connection mutable closure state of the bridge, plus the
`readyState` of the two sockets (`open = true` means
`readyState === WebSocket.OPEN`). -/
structure SessionState where
  streamSid : Option String
  bufferedMs : Nat
  lastSpeechStoppedAt : Int
  responseInProgress : Bool
  outQueue : List String
  openaiOpen : Bool
  twilioOpen : Bool
deriving DecidableEq, Repr

/-- State at connection acceptance: `streamSid = null`, `bufferedMs = 0`,
`lastSpeechStoppedAt = 0`, `responseInProgress = false`, `outQueue = []`;
the telephony socket is open, the provider socket not yet. -/
def initState : SessionState :=
  { streamSid := none
    bufferedMs := 0
    lastSpeechStoppedAt := 0
    responseInProgress := false
    outQueue := []
    openaiOpen := false
    twilioOpen := true }

/-- Messages handed to `wsSend` during one handler invocation, split by
target socket and by issued (the `wsSend` call) versus delivered (the
call found the socket open and wrote the message). -/
structure Effects where
  issuedUp : List UpMsg
  deliveredUp : List UpMsg
  issuedDown : List DownMsg
  deliveredDown : List DownMsg
deriving DecidableEq, Repr

/-- No sends. -/
def Effects.empty : Effects := ⟨[], [], [], []⟩

/-- Sequential composition of effect lists. -/
def Effects.app (a b : Effects) : Effects :=
  ⟨a.issuedUp ++ b.issuedUp, a.deliveredUp ++ b.deliveredUp,
   a.issuedDown ++ b.issuedDown, a.deliveredDown ++ b.deliveredDown⟩

/-- Model of `wsSend(openaiWs, m)`: the message is issued; it is
delivered only when the socket is open. -/
def wsSendUp (openaiOpen : Bool) (m : UpMsg) : Effects :=
  ⟨[m], if openaiOpen then [m] else [], [], []⟩

/-- Model of `wsSend(twilioWs, m)`. -/
def wsSendDown (twilioOpen : Bool) (m : DownMsg) : Effects :=
  ⟨[], [], [m], if twilioOpen then [m] else []⟩

/-- The queue update inside `sendAudioToTwilio`:
`outQueue.push(b64); if (outQueue.length > MAX_OUT_QUEUE) outQueue.shift();`
with `MAX_OUT_QUEUE = 300`. -/
def pushBounded (q : List String) (f : String) : List String :=
  let q2 := q ++ [f]
  if q2.length > 300 then q2.tail else q2

/-- `sendAudioToTwilio(base64Mulaw)`: empty (falsy) payload returns at
once; with `streamSid` unknown the payload is queued; otherwise a media
envelope is sent immediately. -/
def sendAudioToTwilio (s : SessionState) (b64 : String) : SessionState × Effects :=
  if b64 = "" then (s, Effects.empty)
  else
    match s.streamSid with
    | none => ({ s with outQueue := pushBounded s.outQueue b64 }, Effects.empty)
    | some sid => (s, wsSendDown s.twilioOpen ⟨some sid, b64⟩)

/-- `interruptAssistant(openaiWs)`: clears `outQueue`, issues
`response.cancel`, sets `responseInProgress = false`. -/
def interruptAssistant (s : SessionState) : SessionState × Effects :=
  ({ s with outQueue := [], responseInProgress := false },
   wsSendUp s.openaiOpen UpMsg.responseCancel)

/-- The fixed greeting text. -/
def FIXED_GREETING : String :=
  "Thank you for calling Gambrell Photography, We are not able to come answer the phone at the moment."

/-- Per-call instructions of the greeting `response.create`. -/
def greetInstructions : String :=
  "Say exactly: " ++ FIXED_GREETING ++ " Then stop and wait for the caller."

/-- Provider events the `openaiWs.on("message")` handler reacts to;
`unknownEvt` stands for every other (or malformed) message.  Both
historical audio-delta event names are folded into `audioDelta`; the
payload is `""` when the `delta` field is absent or falsy.
`speechStopped` carries the `Date.now()` value observed by the
handler. -/
inductive ProviderEvent where
  | errorEvt
  | speechStarted
  | audioDelta (delta : String)
  | responseCreated
  | responseDone
  | speechStopped (now : Int)
  | unknownEvt
deriving DecidableEq, Repr

/-- The `openaiWs.on("message")` handler (lines 557-595). -/
def handleProvider (s : SessionState) (e : ProviderEvent) : SessionState × Effects :=
  match e with
  | .errorEvt => (s, Effects.empty)
  | .unknownEvt => (s, Effects.empty)
  | .speechStarted =>
      if s.responseInProgress then interruptAssistant s else (s, Effects.empty)
  | .audioDelta d => sendAudioToTwilio s d
  | .responseCreated => ({ s with responseInProgress := true }, Effects.empty)
  | .responseDone => ({ s with responseInProgress := false }, Effects.empty)
  | .speechStopped now =>
      if now - s.lastSpeechStoppedAt < 400 then (s, Effects.empty)
      else
        let s1 := { s with lastSpeechStoppedAt := now }
        if s1.responseInProgress then (s1, Effects.empty)
        else if s1.bufferedMs < 100 then (s1, Effects.empty)
        else
          ({ s1 with responseInProgress := true, bufferedMs := 0 },
           (wsSendUp s1.openaiOpen UpMsg.commit).app
             (wsSendUp s1.openaiOpen (UpMsg.responseCreate none)))

/-- The `openaiWs.on("open")` handler (lines 523-555): the socket is now
open; one `session.update` and the greeting `response.create` are sent,
then `responseInProgress = true`. -/
def handleProviderOpen (s : SessionState) : SessionState × Effects :=
  let s0 := { s with openaiOpen := true }
  ({ s0 with responseInProgress := true },
   (wsSendUp true UpMsg.sessionUpdate).app
     (wsSendUp true (UpMsg.responseCreate (some greetInstructions))))

/-- Telephony events the `twilioWs.on("message")` handler reacts to.
`start` carries `msg.start?.streamSid` (`""` when absent, turned into
`null` by the `|| null`); `media` carries `msg.media?.payload` (`""`
when absent or falsy). -/
inductive TwilioEvent where
  | start (sid : String)
  | media (payload : String)
  | stop
  | unknownEvt
deriving DecidableEq, Repr

/-- The `while (outQueue.length) { wsSend(twilioWs, media...) }` drain
loop of the `start` branch. -/
def drainLoop (sid : Option String) (twilioOpen : Bool) : List String → Effects
  | [] => Effects.empty
  | b :: rest => (wsSendDown twilioOpen ⟨sid, b⟩).app (drainLoop sid twilioOpen rest)

/-- The `twilioWs.on("message")` handler (lines 600-634). -/
def handleTwilio (s : SessionState) (e : TwilioEvent) : SessionState × Effects :=
  match e with
  | .unknownEvt => (s, Effects.empty)
  | .start sid =>
      let sidOpt : Option String := if sid = "" then none else some sid
      ({ s with streamSid := sidOpt, outQueue := [] },
       drainLoop sidOpt s.twilioOpen s.outQueue)
  | .media p =>
      if p = "" then (s, Effects.empty)
      else
        let r := if s.responseInProgress then interruptAssistant s else (s, Effects.empty)
        ({ r.1 with bufferedMs := r.1.bufferedMs + 20 },
         r.2.app (wsSendUp r.1.openaiOpen (UpMsg.appendAudio p)))
  | .stop => ({ s with openaiOpen := false, twilioOpen := false }, Effects.empty)

/-- The `cleanup` routine (lines 636-639): closes both sockets; the
`try { ... } catch {}` swallows any error, so it is a total function. -/
def cleanup (s : SessionState) : SessionState :=
  { s with openaiOpen := false, twilioOpen := false }

/-- One event arriving at the session: the provider open handler, a
provider message, a telephony message, transport close/error of the
telephony socket (which runs `cleanup`), or transport close/error of
the provider socket (whose handlers only log, lines 597-598). -/
inductive Event where
  | providerOpen
  | provider (e : ProviderEvent)
  | telephony (e : TwilioEvent)
  | telephonyClosed
  | providerClosed
deriving DecidableEq, Repr

/-- Dispatch one event. -/
def step (s : SessionState) (ev : Event) : SessionState × Effects :=
  match ev with
  | .providerOpen => handleProviderOpen s
  | .provider e => handleProvider s e
  | .telephony e => handleTwilio s e
  | .telephonyClosed => (cleanup { s with twilioOpen := false }, Effects.empty)
  | .providerClosed => ({ s with openaiOpen := false }, Effects.empty)

/-- Run a list of events, returning the final state. -/
def runState (s : SessionState) : List Event → SessionState
  | [] => s
  | e :: rest => runState (step s e).1 rest

/-- Run a list of events, collecting all effects in order. -/
def runEvents (s : SessionState) : List Event → SessionState × Effects
  | [] => (s, Effects.empty)
  | e :: rest =>
      ((runEvents (step s e).1 rest).1,
       (step s e).2.app (runEvents (step s e).1 rest).2)

/-- Run a list of media-frame arrivals, collecting the messages
delivered to the provider socket. -/
def runMedia (s : SessionState) : List String → SessionState × List UpMsg
  | [] => (s, [])
  | p :: rest =>
      ((runMedia (handleTwilio s (.media p)).1 rest).1,
       (handleTwilio s (.media p)).2.deliveredUp ++
         (runMedia (handleTwilio s (.media p)).1 rest).2)

/-- A well-formed interleaving of the two sockets' callbacks: the
provider `open` event fires at most once, and provider messages fire
only after it. -/
def validFrom (opened : Bool) : List Event → Bool
  | [] => true
  | .providerOpen :: rest => !opened && validFrom true rest
  | .provider _ :: rest => opened && validFrom opened rest
  | _ :: rest => validFrom opened rest

/-- Whether the provider `open` event has fired after these events. -/
def openedAfter (b : Bool) : List Event → Bool
  | [] => b
  | .providerOpen :: rest => openedAfter true rest
  | _ :: rest => openedAfter b rest

/-- Recognizer for `response.create` directives. -/
def isCreate : UpMsg → Bool
  | .responseCreate _ => true
  | _ => false

/-- Recognizer for `input_audio_buffer.append` directives. -/
def isAppend : UpMsg → Bool
  | .appendAudio _ => true
  | _ => false

/-- Recognizer for `response.cancel` directives. -/
def isCancel : UpMsg → Bool
  | .responseCancel => true
  | _ => false

/-- Outcome of the `wss.on("connection")` handler up to the provider
connection attempt (lines 479-521): with no `OPENAI_KEY`, the telephony
socket is closed at once and no provider `WebSocket` is constructed;
otherwise the bridge session starts. -/
structure ConnOutcome where
  telephonyClosedImmediately : Bool
  providerConnectAttempted : Bool
deriving DecidableEq, Repr

/-- The `if (!OPENAI_KEY) { twilioWs.close(); return; }` check followed
by `new WebSocket(...)` (lines 510-521). -/
def onConnection (hasKey : Bool) : ConnOutcome :=
  if hasKey then ⟨false, true⟩ else ⟨true, false⟩

/-! ## Helper lemmas -/

@[simp]
theorem Effects.empty_app (e : Effects) : Effects.empty.app e = e := by
  cases e; simp [Effects.app, Effects.empty]

@[simp]
theorem Effects.app_empty (e : Effects) : e.app Effects.empty = e := by
  cases e; simp [Effects.app, Effects.empty]

theorem Effects.app_assoc (a b c : Effects) :
    (a.app b).app c = a.app (b.app c) := by
  cases a; cases b; cases c; simp [Effects.app]

theorem pushBounded_length (q : List String) (f : String) (h : q.length ≤ 300) :
    (pushBounded q f).length ≤ 300 := by
  unfold pushBounded
  by_cases h2 : (q ++ [f]).length > 300
  · simp only [h2, if_true]
    simp at h2 ⊢
    omega
  · simp only [h2, if_false]
    simp at h2 ⊢
    omega

theorem foldl_pushBounded_length (fs : List String) :
    ∀ (q : List String), q.length ≤ 300 →
      (List.foldl pushBounded q fs).length ≤ 300 := by
  induction fs with
  | nil => intro q h; simpa using h
  | cons f fs ih =>
      intro q h
      simpa using ih (pushBounded q f) (pushBounded_length q f h)

theorem drainLoop_spec (sid : Option String) (q : List String) :
    drainLoop sid true q
      = ⟨[], [], q.map (fun b => (⟨sid, b⟩ : DownMsg)),
         q.map (fun b => (⟨sid, b⟩ : DownMsg))⟩ := by
  induction q with
  | nil => rfl
  | cons b rest ih => simp [drainLoop, wsSendDown, Effects.app, ih]

theorem handleTwilio_media_openaiOpen (t : SessionState) (p : String) :
    (handleTwilio t (.media p)).1.openaiOpen = t.openaiOpen := by
  by_cases hp : p = "" <;> by_cases hr : t.responseInProgress <;>
    simp [handleTwilio, hp, hr, interruptAssistant]

theorem handleTwilio_media_delivered_filter (t : SessionState) (p : String)
    (hp : p ≠ "") (hopen : t.openaiOpen = true) :
    ((handleTwilio t (.media p)).2.deliveredUp.filter isAppend)
      = [UpMsg.appendAudio p] := by
  by_cases hr : t.responseInProgress <;>
    simp [handleTwilio, hp, hr, interruptAssistant, wsSendUp, Effects.app,
      Effects.empty, hopen, isAppend]

theorem runMedia_appends (ps : List String) :
    ∀ (t : SessionState), t.openaiOpen = true → (∀ d ∈ ps, d ≠ "") →
      ((runMedia t ps).2.filter isAppend) = ps.map UpMsg.appendAudio := by
  induction ps with
  | nil => intro t _ _; simp [runMedia]
  | cons p rest ih =>
      intro t hopen hps
      have hp : p ≠ "" := hps p (by simp)
      have hrest : ∀ d ∈ rest, d ≠ "" := fun d hd => hps d (by simp [hd])
      have hopen2 : (handleTwilio t (.media p)).1.openaiOpen = true := by
        rw [handleTwilio_media_openaiOpen]; exact hopen
      simp only [runMedia, List.filter_append]
      rw [handleTwilio_media_delivered_filter t p hp hopen,
        ih _ hopen2 hrest]
      simp

theorem drainLoop_up (sid : Option String) (o : Bool) (q : List String) :
    (drainLoop sid o q).issuedUp = [] ∧ (drainLoop sid o q).deliveredUp = [] := by
  induction q with
  | nil => simp [drainLoop, Effects.empty]
  | cons b rest ih => simp [drainLoop, wsSendDown, Effects.app, ih.1, ih.2]

theorem runEvents_append (xs : List Event) :
    ∀ (ys : List Event) (s : SessionState),
      runEvents s (xs ++ ys)
        = ((runEvents (runEvents s xs).1 ys).1,
           (runEvents s xs).2.app (runEvents (runEvents s xs).1 ys).2) := by
  induction xs with
  | nil => intro ys s; simp [runEvents]
  | cons e xs ih =>
      intro ys s
      show ((runEvents (step s e).1 (xs ++ ys)).1,
            (step s e).2.app (runEvents (step s e).1 (xs ++ ys)).2) = _
      rw [ih ys (step s e).1]
      rw [show runEvents s (e :: xs)
          = ((runEvents (step s e).1 xs).1,
             (step s e).2.app (runEvents (step s e).1 xs).2) from rfl]
      simp [Effects.app_assoc]

theorem runEvents_deliveredDown_append (xs ys : List Event) (s : SessionState) :
    (runEvents s (xs ++ ys)).2.deliveredDown
      = (runEvents s xs).2.deliveredDown
        ++ (runEvents (runEvents s xs).1 ys).2.deliveredDown := by
  rw [runEvents_append xs]; rfl

theorem runEvents_deliveredDown_cons (e : Event) (es : List Event) (s : SessionState) :
    (runEvents s (e :: es)).2.deliveredDown
      = (step s e).2.deliveredDown
        ++ (runEvents (step s e).1 es).2.deliveredDown := rfl

theorem queuePhase (ds : List String) :
    ∀ (s : SessionState), s.streamSid = none → (∀ d ∈ ds, d ≠ "") →
      s.outQueue.length + ds.length ≤ 300 →
      runEvents s (ds.map (fun d => Event.provider (.audioDelta d)))
        = ({ s with outQueue := s.outQueue ++ ds }, Effects.empty) := by
  induction ds with
  | nil =>
      rintro ⟨sid0, bm0, ls0, rip0, oq0, oo0, to0⟩ _ _ _
      simp [runEvents]
  | cons d rest ih =>
      rintro ⟨sid0, bm0, ls0, rip0, oq0, oo0, to0⟩ h1 hds hlen
      have hsid : sid0 = none := h1
      subst hsid
      have hd : d ≠ "" := hds d (by simp)
      have hlen2 : oq0.length + 1 + rest.length ≤ 300 := by
        simpa [Nat.add_comm, Nat.add_assoc, Nat.add_left_comm] using hlen
      have hpush : pushBounded oq0 d = oq0 ++ [d] := by
        show (if (oq0 ++ [d]).length > 300 then (oq0 ++ [d]).tail else oq0 ++ [d])
            = oq0 ++ [d]
        rw [if_neg (by
          simp only [List.length_append, List.length_cons, List.length_nil]
          omega)]
      have hstep : step ⟨none, bm0, ls0, rip0, oq0, oo0, to0⟩
            (Event.provider (.audioDelta d))
          = (⟨none, bm0, ls0, rip0, oq0 ++ [d], oo0, to0⟩, Effects.empty) := by
        simp [step, handleProvider, sendAudioToTwilio, hd, hpush]
      have hlen3 : (oq0 ++ [d]).length + rest.length ≤ 300 := by
        simp only [List.length_append, List.length_cons, List.length_nil]
        omega
      have ihres := ih ⟨none, bm0, ls0, rip0, oq0 ++ [d], oo0, to0⟩ rfl
        (fun x hx => hds x (by simp [hx])) hlen3
      simp only [List.map_cons, runEvents]
      rw [hstep]
      rw [show ((⟨none, bm0, ls0, rip0, oq0 ++ [d], oo0, to0⟩, Effects.empty) :
            SessionState × Effects).1
          = ⟨none, bm0, ls0, rip0, oq0 ++ [d], oo0, to0⟩ from rfl]
      rw [ihres]
      simp [List.append_assoc]

theorem directPhase (ds2 : List String) :
    ∀ (s : SessionState) (sid : String), s.streamSid = some sid →
      s.twilioOpen = true → (∀ d ∈ ds2, d ≠ "") →
      runEvents s (ds2.map (fun d => Event.provider (.audioDelta d)))
        = (s, ⟨[], [], ds2.map (fun b => (⟨some sid, b⟩ : DownMsg)),
               ds2.map (fun b => (⟨some sid, b⟩ : DownMsg))⟩) := by
  induction ds2 with
  | nil => intro s sid _ _ _; simp [runEvents]; rfl
  | cons d rest ih =>
      intro s sid h1 h2 hds
      have hd : d ≠ "" := hds d (by simp)
      have hstep : step s (Event.provider (.audioDelta d))
          = (s, ⟨[], [], [⟨some sid, d⟩], [⟨some sid, d⟩]⟩) := by
        simp [step, handleProvider, sendAudioToTwilio, hd, h1, wsSendDown, h2]
      simp only [List.map_cons, runEvents]
      rw [hstep]
      rw [show ((s, (⟨[], [], [⟨some sid, d⟩], [⟨some sid, d⟩]⟩ : Effects))).1 = s from rfl]
      rw [ih s sid h1 h2 (fun x hx => hds x (by simp [hx]))]
      simp [Effects.app]

theorem startStep (s : SessionState) (sid : String) (hsid : ¬ sid = "")
    (ht : s.twilioOpen = true) :
    step s (.telephony (.start sid))
      = ({ s with streamSid := some sid, outQueue := [] },
         ⟨[], [], s.outQueue.map (fun b => (⟨some sid, b⟩ : DownMsg)),
          s.outQueue.map (fun b => (⟨some sid, b⟩ : DownMsg))⟩) := by
  simp [step, handleTwilio, hsid, ht, drainLoop_spec]

theorem openedAfter_true (es : List Event) : openedAfter true es = true := by
  induction es with
  | nil => rfl
  | cons e rest ih => cases e <;> simp [openedAfter, ih]

theorem validFrom_append (xs : List Event) :
    ∀ (b : Bool) (ys : List Event),
      validFrom b (xs ++ ys)
        = (validFrom b xs && validFrom (openedAfter b xs) ys) := by
  induction xs with
  | nil => intro b ys; simp [validFrom, openedAfter]
  | cons e xs ih =>
      intro b ys
      cases e <;> simp [validFrom, openedAfter, ih, Bool.and_assoc]

theorem responseIdle_before_open (es : List Event) :
    ∀ (s : SessionState), validFrom false es = true →
      openedAfter false es = false → s.responseInProgress = false →
      (runState s es).responseInProgress = false := by
  induction es with
  | nil => intro s _ _ h; simpa [runState] using h
  | cons e rest ih =>
      intro s hv ho hr
      cases e with
      | providerOpen =>
          rw [show openedAfter false (Event.providerOpen :: rest)
              = openedAfter true rest from rfl, openedAfter_true] at ho
          exact absurd ho (by simp)
      | provider pe => simp [validFrom] at hv
      | telephony te =>
          have hv' : validFrom false rest = true := by simpa [validFrom] using hv
          have ho' : openedAfter false rest = false := by simpa [openedAfter] using ho
          simp only [runState]
          refine ih _ hv' ho' ?_
          cases te with
          | start sid => simpa [step, handleTwilio] using hr
          | media p =>
              by_cases hp : p = ""
              · simpa [step, handleTwilio, hp] using hr
              · simp [step, handleTwilio, hp, hr, interruptAssistant]
          | stop => simpa [step, handleTwilio] using hr
          | unknownEvt => simpa [step, handleTwilio] using hr
      | telephonyClosed =>
          have hv' : validFrom false rest = true := by simpa [validFrom] using hv
          have ho' : openedAfter false rest = false := by simpa [openedAfter] using ho
          simp only [runState]
          exact ih _ hv' ho' (by simpa [step, cleanup] using hr)
      | providerClosed =>
          have hv' : validFrom false rest = true := by simpa [validFrom] using hv
          have ho' : openedAfter false rest = false := by simpa [openedAfter] using ho
          simp only [runState]
          exact ih _ hv' ho' (by simpa [step] using hr)

/-! ## Claim theorems -/

/-- C1: in every state with `responseInProgress = true`, the arrival of a
caller media frame (a `media` message carrying a payload) issues exactly
one `response.cancel` directive to the provider, clears the outbound
frame queue to length 0, and leaves `responseInProgress = false`. -/
theorem media_barge_in_cancels_response (s : SessionState) (p : String)
    (hp : p ≠ "") (h : s.responseInProgress = true) :
    ((handleTwilio s (.media p)).2.issuedUp.filter isCancel)
        = [UpMsg.responseCancel]
    ∧ (handleTwilio s (.media p)).1.outQueue = []
    ∧ (handleTwilio s (.media p)).1.responseInProgress = false := by
  simp [handleTwilio, interruptAssistant, wsSendUp, Effects.app, hp, h, isCancel]

/-- Witness for `media_barge_in_cancels_response` at a concrete state. -/
theorem media_barge_in_cancels_response_witness :
    ((handleTwilio { initState with responseInProgress := true, outQueue := ["z"] }
        (.media "QQ")).2.issuedUp.filter isCancel) = [UpMsg.responseCancel]
    ∧ (handleTwilio { initState with responseInProgress := true, outQueue := ["z"] }
        (.media "QQ")).1.outQueue = []
    ∧ (handleTwilio { initState with responseInProgress := true, outQueue := ["z"] }
        (.media "QQ")).1.responseInProgress = false :=
  media_barge_in_cancels_response _ "QQ" (by decide) rfl

/-- C2: with no response in progress, at least 100 ms of buffered audio,
and the previous speech-stopped event at least 400 ms in the past, a
speech-stopped event issues exactly an `input_audio_buffer.commit`
followed by exactly one `response.create`, resets `bufferedMs` to 0 and
sets `responseInProgress` to true. -/
theorem speech_stopped_commit_and_create (s : SessionState) (now : Int)
    (h1 : s.responseInProgress = false) (h2 : 100 ≤ s.bufferedMs)
    (h3 : 400 ≤ now - s.lastSpeechStoppedAt) :
    (handleProvider s (.speechStopped now)).2.issuedUp
        = [UpMsg.commit, UpMsg.responseCreate none]
    ∧ (handleProvider s (.speechStopped now)).1.bufferedMs = 0
    ∧ (handleProvider s (.speechStopped now)).1.responseInProgress = true := by
  have hno : ¬ (now - s.lastSpeechStoppedAt < 400) := not_lt.mpr h3
  have hb : ¬ (s.bufferedMs < 100) := not_lt.mpr h2
  simp [handleProvider, hno, h1, hb, wsSendUp, Effects.app]

/-- Witness for `speech_stopped_commit_and_create` at a concrete state. -/
theorem speech_stopped_commit_and_create_witness :
    (handleProvider { initState with bufferedMs := 100 } (.speechStopped 1000)).2.issuedUp
        = [UpMsg.commit, UpMsg.responseCreate none]
    ∧ (handleProvider { initState with bufferedMs := 100 } (.speechStopped 1000)).1.bufferedMs = 0
    ∧ (handleProvider { initState with bufferedMs := 100 } (.speechStopped 1000)).1.responseInProgress = true :=
  speech_stopped_commit_and_create _ 1000 rfl (by decide) (by decide)

/-- C3 counterexample: with both sockets open, a transport close (or
error) of the provider connection leaves the telephony connection open
and performs no send — the claim that either-side close results in both
connections being closed fails on the provider side, whose close/error
handlers only log. -/
theorem provider_close_leaves_telephony_open :
    (step { initState with openaiOpen := true } Event.providerClosed).1.twilioOpen = true
    ∧ (step { initState with openaiOpen := true } Event.providerClosed).2
        = Effects.empty := by decide

/-- C3 amended: a `stop` event from the telephony peer, or a close or
error on the telephony connection, closes both connections; the
`cleanup` routine is idempotent (and total — `try/catch` swallows close
errors); a close or error on the provider connection leaves the
telephony connection in its previous state (its handlers only log). -/
theorem teardown_paths_and_idempotent_cleanup (s : SessionState) :
    (step s (.telephony .stop)).1.openaiOpen = false
    ∧ (step s (.telephony .stop)).1.twilioOpen = false
    ∧ (step s Event.telephonyClosed).1.openaiOpen = false
    ∧ (step s Event.telephonyClosed).1.twilioOpen = false
    ∧ cleanup (cleanup s) = cleanup s
    ∧ (step s Event.providerClosed).1.twilioOpen = s.twilioOpen := by
  simp [step, handleTwilio, cleanup]

/-- C4 counterexample: a caller media frame arriving while the provider
socket is not open (initial state) is delivered nowhere, and the
resulting session state is identical for two different payloads — the
frame content is retained nowhere, so it cannot be forwarded once the
provider becomes ready; the claim that such frames are queued and later
forwarded in order fails. -/
theorem early_media_dropped_not_queued :
    (handleTwilio initState (.media "AA")).2.deliveredUp = []
    ∧ (handleTwilio initState (.media "AA")).1
        = (handleTwilio initState (.media "BB")).1 := by decide

/-- C4 amended: no caller media frame is forwarded to the provider
before the provider socket is open, but such frames are silently
discarded rather than queued (the post-state does not depend on the
payload); frames arriving while the provider socket is open are
forwarded immediately, in arrival order. -/
theorem inbound_forwarding_gate_and_order
    (s t : SessionState) (p p2 : String) (ps : List String)
    (hp : p ≠ "") (hp2 : p2 ≠ "") (hclosed : s.openaiOpen = false)
    (hopen : t.openaiOpen = true) (hps : ∀ d ∈ ps, d ≠ "") :
    (handleTwilio s (.media p)).2.deliveredUp = []
    ∧ (handleTwilio s (.media p)).1 = (handleTwilio s (.media p2)).1
    ∧ ((runMedia t ps).2.filter isAppend) = ps.map UpMsg.appendAudio := by
  refine ⟨?_, ?_, runMedia_appends ps t hopen hps⟩
  · by_cases hr : s.responseInProgress <;>
      simp [handleTwilio, hp, hr, interruptAssistant, wsSendUp, Effects.app,
        Effects.empty, hclosed]
  · by_cases hr : s.responseInProgress <;>
      simp [handleTwilio, hp, hp2, hr, interruptAssistant]

/-- Witness for `inbound_forwarding_gate_and_order` at concrete states. -/
theorem inbound_forwarding_gate_and_order_witness :
    (handleTwilio initState (.media "a")).2.deliveredUp = []
    ∧ (handleTwilio initState (.media "a")).1
        = (handleTwilio initState (.media "b")).1
    ∧ ((runMedia { initState with openaiOpen := true } ["u", "v"]).2.filter isAppend)
        = [UpMsg.appendAudio "u", UpMsg.appendAudio "v"] :=
  inbound_forwarding_gate_and_order initState { initState with openaiOpen := true }
    "a" "b" ["u", "v"] (by decide) (by decide) rfl rfl (by decide)

/-- C6 counterexample: with `responseInProgress = true` and
`lastSpeechStoppedAt = 0`, a speech-stopped event at time 1000 issues no
directive but does NOT leave the session state unchanged: the debounce
clock `lastSpeechStoppedAt` is updated to 1000 before the
response-in-progress guard returns. -/
theorem guarded_speech_stopped_updates_debounce_clock :
    (handleProvider { initState with responseInProgress := true }
        (.speechStopped 1000)).2.issuedUp = []
    ∧ (handleProvider { initState with responseInProgress := true }
        (.speechStopped 1000)).1
        ≠ { initState with responseInProgress := true } := by decide

/-- C6 amended: when any of the three guards fails, a speech-stopped
event issues nothing at all; the state is unchanged when the event falls
inside the 400 ms debounce window, and otherwise unchanged except that
`lastSpeechStoppedAt` is refreshed to the event time. -/
theorem guarded_speech_stopped_emits_nothing (s : SessionState) (now : Int)
    (h : s.responseInProgress = true ∨ s.bufferedMs < 100
         ∨ now - s.lastSpeechStoppedAt < 400) :
    (handleProvider s (.speechStopped now)).2 = Effects.empty
    ∧ (handleProvider s (.speechStopped now)).1
        = (if now - s.lastSpeechStoppedAt < 400 then s
           else { s with lastSpeechStoppedAt := now }) := by
  by_cases hd : now - s.lastSpeechStoppedAt < 400
  · simp [handleProvider, hd]
  · rcases h with h | h | h
    · simp [handleProvider, hd, h]
    · by_cases hr : s.responseInProgress <;> simp [handleProvider, hd, hr, h]
    · exact absurd h hd

/-- Witness for `guarded_speech_stopped_emits_nothing` at a concrete state. -/
theorem guarded_speech_stopped_emits_nothing_witness :
    (handleProvider { initState with responseInProgress := true }
        (.speechStopped 1000)).2 = Effects.empty
    ∧ (handleProvider { initState with responseInProgress := true }
        (.speechStopped 1000)).1
        = (if (1000 : Int) - ({ initState with responseInProgress := true } : SessionState).lastSpeechStoppedAt < 400
           then ({ initState with responseInProgress := true } : SessionState)
           else { ({ initState with responseInProgress := true } : SessionState) with
                  lastSpeechStoppedAt := 1000 }) :=
  guarded_speech_stopped_emits_nothing _ 1000 (Or.inl rfl)

/-- C8: the outbound relay queue operation appends the frame and, when
the capacity of 300 is exceeded, evicts the oldest frame before the
operation completes; the queue length never exceeds 300 after any
sequence of enqueues; the `start`-branch drain loop flushes all queued
frames in original order and leaves the queue empty. -/
theorem outbound_queue_bounded_and_drained (q : List String) (f : String)
    (h : q.length ≤ 300) :
    pushBounded q f = (if q.length < 300 then q ++ [f] else (q ++ [f]).tail)
    ∧ (pushBounded q f).length ≤ 300
    ∧ (∀ fs : List String, (List.foldl pushBounded [] fs).length ≤ 300)
    ∧ (∀ sid : Option String, (drainLoop sid true q).deliveredDown
        = q.map (fun b => (⟨sid, b⟩ : DownMsg)))
    ∧ (handleTwilio { initState with outQueue := q } (.start "S")).1.outQueue = [] := by
  refine ⟨?_, pushBounded_length q f h, fun fs => foldl_pushBounded_length fs [] (by simp),
    fun sid => by simp [drainLoop_spec], by simp [handleTwilio]⟩
  show (if (q ++ [f]).length > 300 then (q ++ [f]).tail else q ++ [f]) = _
  by_cases hlt : q.length < 300
  · rw [if_pos hlt, if_neg (by simp only [List.length_append, List.length_cons, List.length_nil]; omega)]
  · rw [if_neg hlt, if_pos (by simp only [List.length_append, List.length_cons, List.length_nil]; omega)]

/-- Witness for `outbound_queue_bounded_and_drained` at a concrete queue. -/
theorem outbound_queue_bounded_and_drained_witness :
    pushBounded ["a"] "b"
        = (if (["a"] : List String).length < 300 then ["a"] ++ ["b"] else (["a"] ++ ["b"]).tail)
    ∧ (pushBounded ["a"] "b").length ≤ 300
    ∧ (∀ fs : List String, (List.foldl pushBounded [] fs).length ≤ 300)
    ∧ (∀ sid : Option String, (drainLoop sid true ["a"]).deliveredDown
        = (["a"] : List String).map (fun b => (⟨sid, b⟩ : DownMsg)))
    ∧ (handleTwilio { initState with outQueue := ["a"] } (.start "S")).1.outQueue = [] :=
  outbound_queue_bounded_and_drained ["a"] "b" (by decide)

/-- C9: on an accepted telephony connection with the provider credential
absent, the telephony connection is closed immediately and no provider
connection is attempted; with the credential present the connection is
not closed and the provider connection is attempted, so the missing
credential is the only failure path of this check. -/
theorem missing_credential_fast_fail :
    (onConnection false).telephonyClosedImmediately = true
    ∧ (onConnection false).providerConnectAttempted = false
    ∧ (onConnection true).telephonyClosedImmediately = false
    ∧ (onConnection true).providerConnectAttempted = true := by decide

/-- C10: a media frame with a payload always adds 20 to `bufferedMs`,
even when the provider socket is not open and the append is therefore
silently discarded; a payload-free media frame is a complete no-op (no
increment, no append, no barge-in cancel); concretely, five frames
arriving while the provider socket is closed deliver nothing yet satisfy
the 100 ms commit guard, so the following speech-stopped event issues a
commit for audio the provider never received. -/
theorem media_accounting_vs_delivery (s : SessionState) (p : String)
    (hp : p ≠ "") (hclosed : s.openaiOpen = false) :
    (∀ t : SessionState, (handleTwilio t (.media p)).1.bufferedMs = t.bufferedMs + 20)
    ∧ (handleTwilio s (.media p)).2.deliveredUp = []
    ∧ (∀ t : SessionState, handleTwilio t (.media "") = (t, Effects.empty))
    ∧ (runEvents initState (List.replicate 5 (Event.telephony (.media "m"))
          ++ [Event.provider (.speechStopped 1000)])).2.deliveredUp = []
    ∧ ((runEvents initState (List.replicate 5 (Event.telephony (.media "m"))
          ++ [Event.provider (.speechStopped 1000)])).2.issuedUp.filter
            (fun m => m = UpMsg.commit)) = [UpMsg.commit]
    ∧ (runState initState (List.replicate 5 (Event.telephony (.media "m")))).bufferedMs
        = 100 := by
  refine ⟨?_, ?_, ?_, by decide, by decide, by decide⟩
  · intro t
    by_cases hr : t.responseInProgress <;>
      simp [handleTwilio, hp, hr, interruptAssistant]
  · by_cases hr : s.responseInProgress <;>
      simp [handleTwilio, hp, hr, interruptAssistant, wsSendUp, Effects.app,
        Effects.empty, hclosed]
  · intro t; simp [handleTwilio]

/-- Witness for `media_accounting_vs_delivery` at a concrete state. -/
theorem media_accounting_vs_delivery_witness :
    (∀ t : SessionState, (handleTwilio t (.media "m")).1.bufferedMs = t.bufferedMs + 20)
    ∧ (handleTwilio initState (.media "m")).2.deliveredUp = []
    ∧ (∀ t : SessionState, handleTwilio t (.media "") = (t, Effects.empty))
    ∧ (runEvents initState (List.replicate 5 (Event.telephony (.media "m"))
          ++ [Event.provider (.speechStopped 1000)])).2.deliveredUp = []
    ∧ ((runEvents initState (List.replicate 5 (Event.telephony (.media "m"))
          ++ [Event.provider (.speechStopped 1000)])).2.issuedUp.filter
            (fun m => m = UpMsg.commit)) = [UpMsg.commit]
    ∧ (runState initState (List.replicate 5 (Event.telephony (.media "m")))).bufferedMs
        = 100 :=
  media_accounting_vs_delivery initState "m" (by decide) rfl

/-- C5: synthesized audio deltas arriving while `streamSid` is unknown
are queued in `outQueue`; when the `start` event arrives, every queued
delta is delivered to the telephony peer in original arrival order
before any delta that arrives after `start` (which is delivered
directly, in order). -/
theorem queued_deltas_flushed_in_order (s : SessionState) (ds ds2 : List String)
    (sid : String) (h1 : s.streamSid = none) (h2 : s.twilioOpen = true)
    (h3 : sid ≠ "") (h4 : ∀ d ∈ ds, d ≠ "") (h5 : ∀ d ∈ ds2, d ≠ "")
    (h6 : s.outQueue.length + ds.length ≤ 300) :
    (runEvents s (ds.map (fun d => Event.provider (.audioDelta d))
        ++ Event.telephony (.start sid)
           :: ds2.map (fun d => Event.provider (.audioDelta d)))).2.deliveredDown
      = (s.outQueue ++ ds).map (fun b => (⟨some sid, b⟩ : DownMsg))
        ++ ds2.map (fun b => (⟨some sid, b⟩ : DownMsg)) := by
  have hq := queuePhase ds s h1 h4 h6
  have hst := startStep { s with outQueue := s.outQueue ++ ds } sid h3 (by simpa using h2)
  have hd2 := directPhase ds2
    { s with streamSid := some sid, outQueue := ([] : List String) } sid
    (by simp) (by simpa using h2) h5
  rw [runEvents_deliveredDown_append, hq]
  rw [show (({ s with outQueue := s.outQueue ++ ds }, Effects.empty) :
        SessionState × Effects).1 = { s with outQueue := s.outQueue ++ ds } from rfl]
  rw [runEvents_deliveredDown_cons, hst]
  simp [hd2, Effects.empty]

/-- Witness for `queued_deltas_flushed_in_order` at a concrete run. -/
theorem queued_deltas_flushed_in_order_witness :
    (runEvents initState ((["a", "b"] : List String).map (fun d => Event.provider (.audioDelta d))
        ++ Event.telephony (.start "S")
           :: (["c"] : List String).map (fun d => Event.provider (.audioDelta d)))).2.deliveredDown
      = (initState.outQueue ++ ["a", "b"]).map (fun b => (⟨some "S", b⟩ : DownMsg))
        ++ (["c"] : List String).map (fun b => (⟨some "S", b⟩ : DownMsg)) :=
  queued_deltas_flushed_in_order initState ["a", "b"] ["c"] "S" rfl rfl
    (by decide) (by decide) (by decide) (by decide)

/-- C7: along every well-formed interleaving of callbacks (the provider
`open` event fires at most once and provider messages only after it),
whenever a step issues a `response.create` directive — the greeting at
handshake or the speech-stopped turn reply — the state before that step
has `responseInProgress = false`. -/
theorem response_create_only_when_idle (pre : List Event) (e : Event)
    (post : List Event)
    (hv : validFrom false (pre ++ e :: post) = true)
    (d : UpMsg) (hd : d ∈ (step (runState initState pre) e).2.issuedUp)
    (hc : isCreate d = true) :
    (runState initState pre).responseInProgress = false := by
  rw [validFrom_append] at hv
  simp only [Bool.and_eq_true] at hv
  obtain ⟨hv1, hv2⟩ := hv
  set s0 := runState initState pre with hs0
  cases e with
  | providerOpen =>
      have ho : openedAfter false pre = false := by
        cases h' : openedAfter false pre
        · rfl
        · rw [h'] at hv2; simp [validFrom] at hv2
      exact responseIdle_before_open pre initState hv1 ho rfl
  | provider pe =>
      cases pe with
      | speechStopped now =>
          by_cases hdw : now - s0.lastSpeechStoppedAt < 400
          · simp [step, handleProvider, hdw, Effects.empty] at hd
          · by_cases hrip : s0.responseInProgress
            · simp [step, handleProvider, hdw, hrip, Effects.empty] at hd
            · simpa using hrip
      | speechStarted =>
          by_cases hrip : s0.responseInProgress
          · simp [step, handleProvider, hrip, interruptAssistant, wsSendUp,
              Effects.empty] at hd
            subst hd; simp [isCreate] at hc
          · simp [step, handleProvider, hrip, Effects.empty] at hd
      | audioDelta del =>
          by_cases hdel : del = ""
          · simp [step, handleProvider, sendAudioToTwilio, hdel, Effects.empty] at hd
          · cases hsid : s0.streamSid <;>
              simp [step, handleProvider, sendAudioToTwilio, hdel, hsid,
                wsSendDown, Effects.empty] at hd
      | responseCreated => simp [step, handleProvider, Effects.empty] at hd
      | responseDone => simp [step, handleProvider, Effects.empty] at hd
      | errorEvt => simp [step, handleProvider, Effects.empty] at hd
      | unknownEvt => simp [step, handleProvider, Effects.empty] at hd
  | telephony te =>
      cases te with
      | media p =>
          by_cases hp : p = ""
          · simp [step, handleTwilio, hp, Effects.empty] at hd
          · by_cases hrip : s0.responseInProgress
            · simp [step, handleTwilio, hp, hrip, interruptAssistant, wsSendUp,
                Effects.app, Effects.empty] at hd
              rcases hd with rfl | rfl <;> simp [isCreate] at hc
            · simp [step, handleTwilio, hp, hrip, wsSendUp, Effects.app,
                Effects.empty] at hd
              subst hd; simp [isCreate] at hc
      | start sid => simp [step, handleTwilio, (drainLoop_up _ _ _).1] at hd
      | stop => simp [step, handleTwilio, Effects.empty] at hd
      | unknownEvt => simp [step, handleTwilio, Effects.empty] at hd
  | telephonyClosed => simp [step, Effects.empty] at hd
  | providerClosed => simp [step, Effects.empty] at hd

/-- Witness for `response_create_only_when_idle`: the greeting issued at
the provider handshake, after an empty prefix. -/
theorem response_create_only_when_idle_witness :
    (runState initState []).responseInProgress = false :=
  response_create_only_when_idle [] Event.providerOpen [] (by decide)
    (UpMsg.responseCreate (some greetInstructions))
    (by simp [runState, step, handleProviderOpen, wsSendUp, Effects.app])
    rfl

end PhoneAgent
